import Mathlib

/-!
Verification of the statistics / streak / leaderboard logic of a
personal-tracking web service backend.

The embedded definitions are shallow translations of the TypeScript source:
* the `GET /api/stats` streak computation (current streak and longest streak
  over the distinct logged dates, sorted descending, as millisecond
  timestamps normalized to midnight);
* the `GET /api/stats` average-per-day computation;
* the 30-day daily histogram produced by the grouped SQL query;
* the `GET /api/leaderboard` rank assignment;
* the database-unavailable guard branches of every endpoint;
* the `PUT /api/poops/:id` and `DELETE /api/poops/:id` handlers over an
  explicit list-of-rows store;
* the `POST /api/poops` insert with its JavaScript `|| null` coercions and
  the request validator.
-/

namespace Mierdapp

/-- One day in milliseconds, the literal `86400000` used by the source. -/
def DAY : Int := 86400000

/-- The current-streak loop of `GET /api/stats` for indices `i ≥ 1` (after the
head of the date list has been handled): while the date at the cursor equals
`checkDate` the streak grows and the cursor moves one day back; the first
mismatch breaks the loop. -/
def currentLoop : List Int → Int → Nat → Nat
  | [], _, acc => acc
  | d :: rest, check, acc =>
    if d = check then currentLoop rest (check - DAY) (acc + 1) else acc

/-- Current streak of `GET /api/stats`: the walk starts at `today`; the head
of the list may instead be `today - 1 day` (the `i === 0` special case that
keeps a streak open when today has no entry yet); any other head gives 0. -/
def computeCurrentStreak (dates : List Int) (today : Int) : Nat :=
  match dates with
  | [] => 0
  | d :: rest =>
    if d = today then currentLoop rest (today - DAY) 1
    else if d = today - DAY then currentLoop rest (d - DAY) 1
    else 0

/-- The longest-streak scan of `GET /api/stats` over consecutive pairs:
a gap of exactly one day extends `tempStreak`, anything else folds
`tempStreak` into `longestStreak` and restarts at 1. Returns the pair
`(longestStreak, tempStreak)` as left at loop exit. -/
def longestLoop (prev : Int) : List Int → Nat → Nat → Nat × Nat
  | [], longest, temp => (longest, temp)
  | d :: rest, longest, temp =>
    if prev - d = DAY then longestLoop d rest longest (temp + 1)
    else longestLoop d rest (max longest temp) 1

/-- The `(longestStreak, tempStreak)` pair after the scan loop: `tempStreak`
is initialized to 1 before the loop (also when the date list is empty), and
the loop runs from index 1. -/
def longestPair (dates : List Int) : Nat × Nat :=
  match dates with
  | [] => (0, 1)
  | d :: rest => longestLoop d rest 0 1

/-- The streak computation of `GET /api/stats`: current streak, and
`longestStreak = Math.max(longestStreak, tempStreak, currentStreak)` after
the scan loop. -/
def computeStreaks (dates : List Int) (today : Int) : Nat × Nat :=
  (computeCurrentStreak dates today,
    max (max (longestPair dates).1 (longestPair dates).2)
      (computeCurrentStreak dates today))

/-- The accumulator of the current-streak loop never decreases. -/
theorem currentLoop_le (l : List Int) (check : Int) (acc : Nat) :
    acc ≤ currentLoop l check acc := by
  induction l generalizing check acc with
  | nil => exact Nat.le_refl _
  | cons d rest ih =>
    by_cases h : d = check
    · simp only [currentLoop, if_pos h]
      exact Nat.le_trans (Nat.le_succ acc) (ih _ _)
    · simp only [currentLoop, if_neg h]
      exact Nat.le_refl _

/-- C1 (code side): on the empty distinct-date list the streak computation of
`GET /api/stats` returns current streak 0 but longest streak 1, because
`tempStreak` is initialized to 1 before the scan loop and folded into the
final `Math.max(longestStreak, tempStreak, currentStreak)` even when no date
exists; the specified result `{current: 0, longest: 0}` is not what the code
computes. -/
theorem c1_empty_streak_eval : computeStreaks [] 0 = (0, 1) := rfl

/-- C2: when the input contains exactly one date equal to `today`, both the
current streak and the longest streak equal 1. -/
theorem c2_single_today_streak (today : Int) :
    computeStreaks [today] today = (1, 1) := by
  simp [computeStreaks, computeCurrentStreak, currentLoop, longestPair,
    longestLoop]

/-- C3: if the most recent logged date is exactly one day before `today`
(no entry yet today), the current streak is counted from that date instead of
being 0 — it is at least 1 whatever follows; and on the concrete input
`[today - 1 day, today - 2 days]` the result is current streak 2 and longest
streak 2. -/
theorem c3_yesterday_keeps_streak_open (today : Int) (rest : List Int) :
    1 ≤ computeCurrentStreak ((today - DAY) :: rest) today ∧
      computeStreaks [today - DAY, today - 2 * DAY] today = (2, 2) := by
  have hne : today - DAY ≠ today := by simp [DAY]
  have h2 : today - 2 * DAY = today - DAY - DAY := by ring
  have hgap : today - DAY - (today - 2 * DAY) = DAY := by rw [h2]; ring
  constructor
  · simp only [computeCurrentStreak, if_neg hne, if_pos rfl]
    exact currentLoop_le rest _ 1
  · simp [computeStreaks, computeCurrentStreak, currentLoop, longestPair,
      longestLoop, hne, h2, hgap]

/-- C4: for every sorted-descending sequence of distinct dates, the longest
streak returned by the streak computation is at least the current streak
(the final fold takes a `max` with the current streak). -/
theorem c4_longest_ge_current (dates : List Int) (today : Int)
    (_hsorted : dates.Pairwise (fun a b => b < a)) :
    (computeStreaks dates today).1 ≤ (computeStreaks dates today).2 := by
  simp only [computeStreaks]
  exact le_max_right _ _

/-- Witness for C4 at the concrete sorted-descending input `[86400000, 0]`
with `today = 86400000`. -/
theorem c4_longest_ge_current_witness :
    ([(86400000 : Int), 0].Pairwise (fun a b => b < a)) ∧
      (computeStreaks [(86400000 : Int), 0] 86400000).1 ≤
        (computeStreaks [(86400000 : Int), 0] 86400000).2 := by
  refine ⟨?_, c4_longest_ge_current _ _ ?_⟩ <;> decide

/-- The average-per-day computation of `GET /api/stats`: 0 when the user has
no first event timestamp (`MIN(timestamp)` is null); otherwise the all-time
count divided by `Math.max(1, Math.ceil((Date.now() - first) / 86400000))`.
Timestamps are milliseconds; the division result is kept exact as a
rational. -/
def computeAverage (allTime : Nat) (first : Option Int) (now : Int) : ℚ :=
  match first with
  | none => 0
  | some f => (allTime : ℚ) / ((max 1 ⌈((now - f : ℚ)) / 86400000⌉ : Int) : ℚ)

/-- C5: the average-per-day computation returns 0 when no first event
timestamp exists; otherwise it is the all-time count divided by
`max(1, ceil((now - first) / 1 day))`; in particular a user whose first
event is at `now` with all-time count 10 gets average 10. -/
theorem c5_avg_per_day (allTime : Nat) (now : Int) :
    computeAverage allTime none now = 0 ∧
      (∀ f : Int, computeAverage allTime (some f) now =
        (allTime : ℚ) / ((max 1 ⌈((now - f : ℚ)) / 86400000⌉ : Int) : ℚ)) ∧
      computeAverage 10 (some now) now = 10 := by
  refine ⟨rfl, fun f => rfl, ?_⟩
  simp [computeAverage]

/-- The descending date order of the `ORDER BY date DESC` clause. -/
def dateDesc (a b : Int) : Prop := b ≤ a

instance : DecidableRel dateDesc :=
  fun a b => inferInstanceAs (Decidable (b ≤ a))

instance : IsTotal Int dateDesc := ⟨fun a b => le_total b a⟩

instance : IsTrans Int dateDesc := ⟨fun _ _ _ h1 h2 => le_trans h2 h1⟩

/-- The 30-day daily histogram of `GET /api/stats` (dailyData query):
`events` is the multiset of event dates (day numbers) of the user; the query
keeps events with `timestamp >= CURRENT_DATE - INTERVAL '30 days'`, groups by
date and orders descending; each group carries its row count. -/
def dailyHistogram (events : List Int) (today : Int) : List (Int × Nat) :=
  let filtered := events.filter (fun d => decide (today - 30 ≤ d))
  (List.insertionSort dateDesc filtered.dedup).map
    (fun d => (d, filtered.count d))

/-- C6: if every event date is at most `today` (events are inserted with the
current timestamp), then every histogram entry has count at least 1 and a
date inside the trailing 30-day window `[today - 30, today]`, and the entries
are ordered descending by date. -/
theorem c6_daily_histogram (events : List Int) (today : Int)
    (h : ∀ d ∈ events, d ≤ today) :
    (∀ p ∈ dailyHistogram events today,
        1 ≤ p.2 ∧ today - 30 ≤ p.1 ∧ p.1 ≤ today) ∧
      (dailyHistogram events today).Pairwise (fun p q => q.1 ≤ p.1) := by
  constructor
  · intro p hp
    simp only [dailyHistogram, List.mem_map] at hp
    obtain ⟨d, hd, rfl⟩ := hp
    rw [List.mem_insertionSort, List.mem_dedup] at hd
    have hdmem := hd
    rw [List.mem_filter] at hdmem
    obtain ⟨hde, hdw⟩ := hdmem
    refine ⟨List.count_pos_iff.mpr hd, ?_, h d hde⟩
    simpa using hdw
  · simp only [dailyHistogram, List.pairwise_map]
    exact List.sorted_insertionSort dateDesc _

/-- Witness for C6 at the concrete event list `[0]` with `today = 0`. -/
theorem c6_daily_histogram_witness :
    (∀ p ∈ dailyHistogram [0] 0, 1 ≤ p.2 ∧ (0 : Int) - 30 ≤ p.1 ∧ p.1 ≤ 0) ∧
      (dailyHistogram [0] 0).Pairwise (fun p q => q.1 ≤ p.1) :=
  c6_daily_histogram [0] 0 (by decide)

/-- A row of the `GET /api/leaderboard` SQL result: one user (the requester
or an accepted friend) with the count of their events since the start of the
current week. The database returns these rows ordered by
`week_count DESC`. -/
structure LbRow where
  id : Nat
  username : String
  display_name : String
  week_count : Nat
deriving DecidableEq

/-- One entry of the leaderboard JSON response. -/
structure LbEntry where
  rank : Nat
  userId : Nat
  value : Nat
  isCurrentUser : Bool
deriving DecidableEq

/-- The `result.rows.map((row, index) => ...)` of `GET /api/leaderboard`:
`rank` is the 1-based positional index, `value` the weekly count, and
`isCurrentUser` compares the row id with the requesting user's id. -/
def mkLeaderboard (uid : Nat) : Nat → List LbRow → List LbEntry
  | _, [] => []
  | i, r :: rest =>
    { rank := i + 1, userId := r.id, value := r.week_count,
      isCurrentUser := r.id == uid } :: mkLeaderboard uid (i + 1) rest

/-- The leaderboard response built from the sorted rows. -/
def leaderboard (rows : List LbRow) (uid : Nat) : List LbEntry :=
  mkLeaderboard uid 0 rows

theorem mkLeaderboard_map_rank (uid : Nat) (rows : List LbRow) (i : Nat) :
    (mkLeaderboard uid i rows).map (fun e => e.rank) =
      List.range' (i + 1) rows.length := by
  induction rows generalizing i with
  | nil => rfl
  | cons r rest ih =>
    simp only [mkLeaderboard, List.map_cons, List.length_cons, List.range',
      ih (i + 1)]

theorem mkLeaderboard_map_value (uid : Nat) (rows : List LbRow) (i : Nat) :
    (mkLeaderboard uid i rows).map (fun e => e.value) =
      rows.map (fun r => r.week_count) := by
  induction rows generalizing i with
  | nil => rfl
  | cons r rest ih => simp only [mkLeaderboard, List.map_cons, ih (i + 1)]

theorem mkLeaderboard_countP (uid : Nat) (rows : List LbRow) (i : Nat) :
    (mkLeaderboard uid i rows).countP (fun e => e.isCurrentUser) =
      rows.countP (fun r => r.id == uid) := by
  induction rows generalizing i with
  | nil => rfl
  | cons r rest ih =>
    simp only [mkLeaderboard, List.countP_cons, ih (i + 1)]

theorem mkLeaderboard_isCurrentUser (uid : Nat) (rows : List LbRow) (i : Nat) :
    ∀ e ∈ mkLeaderboard uid i rows,
      (e.isCurrentUser = true ↔ e.userId = uid) := by
  induction rows generalizing i with
  | nil => intro e he; cases he
  | cons r rest ih =>
    intro e he
    rcases he with _ | ⟨_, hmem⟩
    · simp
    · exact ih (i + 1) e hmem

/-- C7: if the rows are sorted descending by weekly count and contain the
requesting user's id exactly once, then the leaderboard's ranks are the
dense sequence `1..N`, its values are descending (consecutive ranks for
ties, never a shared rank), and `isCurrentUser` is true for exactly one
entry — the one whose user id is the requester's. -/
theorem c7_leaderboard_ranks (rows : List LbRow) (uid : Nat)
    (hsorted : rows.Pairwise (fun a b => b.week_count ≤ a.week_count))
    (huniq : rows.countP (fun r => r.id == uid) = 1) :
    (leaderboard rows uid).map (fun e => e.rank) =
        List.range' 1 rows.length ∧
      (leaderboard rows uid).Pairwise (fun a b => b.value ≤ a.value) ∧
      (leaderboard rows uid).countP (fun e => e.isCurrentUser) = 1 ∧
      ∀ e ∈ leaderboard rows uid, (e.isCurrentUser = true ↔ e.userId = uid) := by
  refine ⟨mkLeaderboard_map_rank uid rows 0, ?_, ?_, ?_⟩
  · have h1 : (rows.map (fun r => r.week_count)).Pairwise
        (fun x y => y ≤ x) := List.pairwise_map.mpr hsorted
    rw [← mkLeaderboard_map_value uid rows 0] at h1
    exact List.pairwise_map.mp h1
  · rw [leaderboard, mkLeaderboard_countP, huniq]
  · exact mkLeaderboard_isCurrentUser uid rows 0

/-- Witness for C7 at two concrete rows (ids 1 and 2, weekly counts 5 and 3)
for requesting user 1. -/
theorem c7_leaderboard_ranks_witness :
    (leaderboard [⟨1, "a", "a", 5⟩, ⟨2, "b", "b", 3⟩] 1).map
          (fun e => e.rank) = List.range' 1 2 ∧
      (leaderboard [⟨1, "a", "a", 5⟩, ⟨2, "b", "b", 3⟩] 1).Pairwise
        (fun a b => b.value ≤ a.value) ∧
      (leaderboard [⟨1, "a", "a", 5⟩, ⟨2, "b", "b", 3⟩] 1).countP
          (fun e => e.isCurrentUser) = 1 ∧
      ∀ e ∈ leaderboard [⟨1, "a", "a", 5⟩, ⟨2, "b", "b", 3⟩] 1,
        (e.isCurrentUser = true ↔ e.userId = 1) :=
  c7_leaderboard_ranks [⟨1, "a", "a", 5⟩, ⟨2, "b", "b", 3⟩] 1
    (by decide) (by decide)

/-- The JSON body returned by the `GET /api/stats` guard and catch branches:
all counters, streaks and the average, plus the dailyData list. -/
structure StatsBody where
  today : Nat
  week : Nat
  month : Nat
  allTime : Nat
  currentStreak : Nat
  longestStreak : Nat
  avgPerDay : ℚ
  dailyData : List (Int × Nat)
deriving DecidableEq

/-- The response an endpoint produces on its `isDbReady()` guard branch:
either a JSON object whose single list field is the literal `[]`, the
all-zero stats body, or `res.status(s).json(\x7b error: msg \x7d)`. -/
inductive GuardResp where
  | okEmptyList (field : String)
  | okStats (body : StatsBody)
  | err (status : Nat) (msg : String)
deriving DecidableEq

/-- The endpoints of the HTTP surface that carry an `isDbReady()` guard
(every endpoint except `POST /api/auth/login`, which belongs to the
authentication collaborator scoped out by the spec). -/
inductive Endpoint where
  | getPoops
  | getStats
  | getFriends
  | getPendingRequests
  | getFriendPoops
  | getFeed
  | searchFriends
  | getLeaderboard
  | registerUser
  | deleteAccount
  | postPoops
  | putPoop
  | deletePoop
  | friendRequest
  | friendRespond
deriving DecidableEq

/-- The read (GET) endpoints. -/
def isReadEndpoint : Endpoint → Bool
  | .getPoops | .getStats | .getFriends | .getPendingRequests
  | .getFriendPoops | .getFeed | .searchFriends | .getLeaderboard => true
  | _ => false

/-- The write (POST/PUT/DELETE) endpoints. -/
def isWriteEndpoint : Endpoint → Bool
  | .registerUser | .deleteAccount | .postPoops | .putPoop
  | .deletePoop | .friendRequest | .friendRespond => true
  | _ => false

/-- What each handler returns on its `if (!isDbReady())` branch, read off
the source literally (field names, status codes and messages). -/
def dbDownResponse : Endpoint → GuardResp
  | .getPoops => .okEmptyList "logs"
  | .getStats => .okStats ⟨0, 0, 0, 0, 0, 0, 0, []⟩
  | .getFriends => .okEmptyList "friends"
  | .getPendingRequests => .okEmptyList "requests"
  | .getFriendPoops => .okEmptyList "logs"
  | .getFeed => .okEmptyList "logs"
  | .searchFriends => .okEmptyList "users"
  | .getLeaderboard => .okEmptyList "leaderboard"
  | .registerUser => .err 503 "Database not configured"
  | .deleteAccount => .err 503 "Database not configured"
  | .postPoops => .err 503 "Database not configured"
  | .putPoop => .err 503 "Database not ready"
  | .deletePoop => .err 503 "Database not ready"
  | .friendRequest => .err 503 "Database not configured"
  | .friendRespond => .err 503 "Database not configured"

/-- A response is empty or zeroed when it is a 200 JSON body whose list is
empty, or the stats body with every counter 0 and no daily data. -/
def isEmptyOrZeroed : GuardResp → Bool
  | .okEmptyList _ => true
  | .okStats body => body == ⟨0, 0, 0, 0, 0, 0, 0, []⟩
  | .err _ _ => false

/-- A response signals service unavailability when it is a 503 error. -/
def isServiceUnavailable : GuardResp → Bool
  | .err status _ => status == 503
  | _ => false

/-- C8: with the backing store unavailable, every read endpoint returns an
empty or zeroed result (the statistics endpoint an all-zero snapshot with an
empty dailyData list) and every write endpoint returns a 503
service-unavailable signal. -/
theorem c8_db_down_degrade (e : Endpoint) :
    (isReadEndpoint e = true → isEmptyOrZeroed (dbDownResponse e) = true) ∧
      (isWriteEndpoint e = true →
        isServiceUnavailable (dbDownResponse e) = true) := by
  cases e <;> exact ⟨by decide, by decide⟩

/-- Witness for C8 at the statistics read endpoint and the event-creation
write endpoint. -/
theorem c8_db_down_degrade_witness :
    isEmptyOrZeroed (dbDownResponse .getStats) = true ∧
      isServiceUnavailable (dbDownResponse .postPoops) = true :=
  ⟨(c8_db_down_degrade .getStats).1 rfl, (c8_db_down_degrade .postPoops).2 rfl⟩

/-- A stored `poop_logs` row. -/
structure PoopLog where
  id : Nat
  user_id : Nat
  timestamp : Int
  notes : Option String
  latitude : Option ℚ
  longitude : Option ℚ
  location_name : Option String
  photo_url : Option String
  rating : Option Int
  duration_minutes : Option Int
deriving DecidableEq

/-- The optional request-body fields of `POST /api/poops` and
`PUT /api/poops/:id` (the keys of the handler's `fieldMap`). -/
structure PoopReq where
  notes : Option String
  latitude : Option ℚ
  longitude : Option ℚ
  locationName : Option String
  photoUrl : Option String
  rating : Option Int
  durationMinutes : Option Int
deriving DecidableEq

/-- `optional()` in the validator chain: an absent field always passes. -/
def optCheck {α : Type} (p : α → Bool) : Option α → Bool
  | none => true
  | some v => p v

/-- The `poopLogValidator` chain of `src/lib/validators.ts`: bounds on the
numeric fields, length bounds on the strings, and the external `isURL`
predicate on `photoUrl`. -/
def poopLogValid (isURL : String → Bool) (r : PoopReq) : Bool :=
  optCheck (fun s => decide (s.length ≤ 1000)) r.notes &&
    optCheck (fun v => decide (-90 ≤ v ∧ v ≤ 90)) r.latitude &&
    optCheck (fun v => decide (-180 ≤ v ∧ v ≤ 180)) r.longitude &&
    optCheck (fun s => decide (s.length ≤ 100)) r.locationName &&
    optCheck isURL r.photoUrl &&
    optCheck (fun v => decide (1 ≤ v ∧ v ≤ 5)) r.rating &&
    optCheck (fun v => decide (0 ≤ v ∧ v ≤ 1440)) r.durationMinutes

/-- JavaScript `s || null` on an optional string: the empty string is falsy
and becomes null. -/
def orNullStr : Option String → Option String
  | none => none
  | some s => if s = "" then none else some s

/-- JavaScript `v || null` on an optional number: 0 is falsy and becomes
null. -/
def orNullQ : Option ℚ → Option ℚ
  | none => none
  | some v => if v = 0 then none else some v

/-- JavaScript `v || null` on an optional integer: 0 is falsy and becomes
null. -/
def orNullInt : Option Int → Option Int
  | none => none
  | some v => if v = 0 then none else some v

/-- The row inserted by `POST /api/poops`: every optional field goes through
`|| null` before being bound into the INSERT. -/
def insertedRow (rid uid : Nat) (ts : Int) (r : PoopReq) : PoopLog :=
  { id := rid
    user_id := uid
    timestamp := ts
    notes := orNullStr r.notes
    latitude := orNullQ r.latitude
    longitude := orNullQ r.longitude
    location_name := orNullStr r.locationName
    photo_url := orNullStr r.photoUrl
    rating := orNullInt r.rating
    duration_minutes := orNullInt r.durationMinutes }

/-- The `WHERE id = $i AND user_id = $u` condition of the UPDATE and DELETE
statements. -/
def rowMatches (i u : Nat) (r : PoopLog) : Bool := r.id == i && r.user_id == u

/-- `setClause.length === 0` check: at least one `fieldMap` key is present in
the body. -/
def hasUpdateFields (r : PoopReq) : Bool :=
  r.notes.isSome || r.latitude.isSome || r.longitude.isSome ||
    r.locationName.isSome || r.photoUrl.isSome || r.rating.isSome ||
    r.durationMinutes.isSome

/-- A column of the SET clause: a provided value replaces the stored one,
an absent field leaves the column untouched. -/
def updField {α : Type} : Option α → Option α → Option α
  | some v, _ => some v
  | none, old => old

/-- The effect of the UPDATE's SET clause on one matching row. -/
def applyUpdate (u : PoopReq) (row : PoopLog) : PoopLog :=
  { id := row.id
    user_id := row.user_id
    timestamp := row.timestamp
    notes := updField u.notes row.notes
    latitude := updField u.latitude row.latitude
    longitude := updField u.longitude row.longitude
    location_name := updField u.locationName row.location_name
    photo_url := updField u.photoUrl row.photo_url
    rating := updField u.rating row.rating
    duration_minutes := updField u.durationMinutes row.duration_minutes }

/-- Outcome of a write handler. -/
inductive WriteResult where
  | badRequest
  | notFound
  | okLog (log : PoopLog)
  | okDeleted
deriving DecidableEq

/-- The `PUT /api/poops/:id` handler over an explicit store: with no field to
set it answers 400 before touching the store; otherwise the UPDATE rewrites
the rows matching id and owner, RETURNING those rows, and an empty RETURNING
set yields 404. -/
def putPoopHandler (store : List PoopLog) (i u : Nat) (upd : PoopReq) :
    List PoopLog × WriteResult :=
  if hasUpdateFields upd = false then (store, .badRequest)
  else
    let updated := store.map
      (fun r => if rowMatches i u r then applyUpdate upd r else r)
    match (store.filter (rowMatches i u)).map (applyUpdate upd) with
    | [] => (updated, .notFound)
    | r :: _ => (updated, .okLog r)

/-- The `DELETE /api/poops/:id` handler over an explicit store: the DELETE
removes the rows matching id and owner, and an empty RETURNING set yields
404. -/
def deletePoopHandler (store : List PoopLog) (i u : Nat) :
    List PoopLog × WriteResult :=
  let remaining := store.filter (fun r => !rowMatches i u r)
  if (store.filter (rowMatches i u)).isEmpty then (remaining, .notFound)
  else (remaining, .okDeleted)

theorem map_update_no_match (store : List PoopLog) (i u : Nat) (upd : PoopReq)
    (h : ∀ r ∈ store, rowMatches i u r = false) :
    store.map (fun r => if rowMatches i u r then applyUpdate upd r else r) =
      store := by
  induction store with
  | nil => rfl
  | cons a l ih =>
    simp only [List.map_cons, h a (List.mem_cons_self a l), if_neg,
      Bool.false_eq_true, not_false_eq_true, List.cons.injEq, true_and]
    exact ih fun r hr => h r (List.mem_cons_of_mem a hr)

/-- C9: when no stored entry matches both the given id and the calling
user's id, the update handler (given a non-empty field set) and the delete
handler both answer not-found and leave the store unchanged. -/
theorem c9_not_found_state_unchanged (store : List PoopLog) (i u : Nat)
    (upd : PoopReq) (hnone : ∀ r ∈ store, rowMatches i u r = false)
    (hfields : hasUpdateFields upd = true) :
    putPoopHandler store i u upd = (store, .notFound) ∧
      deletePoopHandler store i u = (store, .notFound) := by
  have hfilter : store.filter (rowMatches i u) = [] := by
    rw [List.filter_eq_nil_iff]
    intro a ha
    simp [hnone a ha]
  have hkeep : store.filter (fun r => !rowMatches i u r) = store := by
    rw [List.filter_eq_self]
    intro a ha
    simp [hnone a ha]
  constructor
  · rw [putPoopHandler, if_neg (by simp [hfields]), hfilter,
      map_update_no_match store i u upd hnone]
    rfl
  · rw [deletePoopHandler]
    simp only [hfilter, hkeep, List.isEmpty_nil, if_pos]

/-- Witness for C9: a one-row store owned by user 0, targeted with id 1 and
user 1 (no match) and an update that sets `notes`. -/
theorem c9_not_found_state_unchanged_witness :
    putPoopHandler [⟨0, 0, 0, none, none, none, none, none, none, none⟩] 1 1
          ⟨some "x", none, none, none, none, none, none⟩ =
        ([⟨0, 0, 0, none, none, none, none, none, none, none⟩], .notFound) ∧
      deletePoopHandler [⟨0, 0, 0, none, none, none, none, none, none, none⟩]
          1 1 =
        ([⟨0, 0, 0, none, none, none, none, none, none, none⟩], .notFound) :=
  c9_not_found_state_unchanged _ 1 1 _ (by decide) (by decide)

/-- C10: any optional field of `POST /api/poops` whose provided value is
falsy is stored as null: a `durationMinutes` of 0, a `latitude` of 0 or a
`longitude` of 0 is persisted as null, even though the validator accepts
those values. -/
theorem c10_falsy_stored_as_null (rid uid : Nat) (ts : Int)
    (isURL : String → Bool) :
    (∀ r : PoopReq, r.durationMinutes = some 0 →
        (insertedRow rid uid ts r).duration_minutes = none) ∧
      (∀ r : PoopReq, r.latitude = some 0 →
        (insertedRow rid uid ts r).latitude = none) ∧
      (∀ r : PoopReq, r.longitude = some 0 →
        (insertedRow rid uid ts r).longitude = none) ∧
      poopLogValid isURL ⟨none, some 0, some 0, none, none, none, some 0⟩ =
        true ∧
      insertedRow rid uid ts ⟨none, some 0, some 0, none, none, none, some 0⟩ =
        ⟨rid, uid, ts, none, none, none, none, none, none, none⟩ := by
  refine ⟨?_, ?_, ?_, ?_, ?_⟩
  · intro r hr
    simp [insertedRow, orNullInt, hr]
  · intro r hr
    simp [insertedRow, orNullQ, hr]
  · intro r hr
    simp [insertedRow, orNullQ, hr]
  · simp [poopLogValid, optCheck]
  · simp [insertedRow, orNullStr, orNullQ, orNullInt]

/-- Witness for C10 at a concrete request carrying duration 0 and
coordinates (0, 0). -/
theorem c10_falsy_stored_as_null_witness :
    (insertedRow 0 0 0 ⟨none, some 0, some 0, none, none, none, some 0⟩
        ).duration_minutes = none :=
  (c10_falsy_stored_as_null 0 0 0 (fun _ => true)).1
    ⟨none, some 0, some 0, none, none, none, some 0⟩ rfl

end Mierdapp
